/-
Verification of the algorithmic core of the Air_pollution repository:
the Indian AQI calculator (src/indian_aqi_calculator.py) and the
policy impact analyzer (src/policy_impact_analyzer.py).

Modelling conventions:
* Concentrations, AQI series values and statistics are exact rationals (ℚ);
  dates are integers (days).  Python's `round` (half to even) is `pyRound`.
* Python functions returning `None` on failure are modelled with `Option`;
  the modelled code paths raise no exceptions.
* pandas `Series.mean()` of an empty slice is NaN; NaN (and the other
  non-finite float results) are modelled as `Option.none`, and the Python
  semantics `NaN < x = False` is reproduced where the code compares such
  a value.
* `scipy.stats.ttest_ind` is a third-party library call, not code of this
  repository; its resulting p-value enters `analyze_odd_even_period` as an
  explicit parameter.
-/
import Mathlib

namespace AirPollution

/-- Python's built-in `round` applied to an exact value: round half to even. -/
def pyRound (q : ℚ) : ℤ :=
  if q - (⌊q⌋ : ℚ) < 1/2 then ⌊q⌋
  else if 1/2 < q - (⌊q⌋ : ℚ) then ⌊q⌋ + 1
  else if ⌊q⌋ % 2 = 0 then ⌊q⌋ else ⌊q⌋ + 1

/-- One row of a breakpoint table:
`(min_concentration, max_concentration, min_aqi, max_aqi)`. -/
structure Bracket where
  cLow : ℚ
  cHigh : ℚ
  iLow : ℤ
  iHigh : ℤ
deriving DecidableEq, Repr

/-- The six pollutant keys of `INDIAN_AQI_BREAKPOINTS`. -/
inductive Pollutant
  | pm25 | pm10 | no2 | so2 | co | o3
deriving DecidableEq, Repr

/-- `INDIAN_AQI_BREAKPOINTS` from indian_aqi_calculator.py, lines 13-62. -/
def INDIAN_AQI_BREAKPOINTS : Pollutant → List Bracket
  | .pm25 =>
      [⟨0, 30, 0, 50⟩, ⟨31, 60, 51, 100⟩, ⟨61, 90, 101, 200⟩,
       ⟨91, 120, 201, 300⟩, ⟨121, 250, 301, 400⟩, ⟨251, 500, 401, 500⟩]
  | .pm10 =>
      [⟨0, 50, 0, 50⟩, ⟨51, 100, 51, 100⟩, ⟨101, 250, 101, 200⟩,
       ⟨251, 350, 201, 300⟩, ⟨351, 430, 301, 400⟩, ⟨431, 600, 401, 500⟩]
  | .no2 =>
      [⟨0, 40, 0, 50⟩, ⟨41, 80, 51, 100⟩, ⟨81, 180, 101, 200⟩,
       ⟨181, 280, 201, 300⟩, ⟨281, 400, 301, 400⟩, ⟨401, 1000, 401, 500⟩]
  | .so2 =>
      [⟨0, 40, 0, 50⟩, ⟨41, 80, 51, 100⟩, ⟨81, 380, 101, 200⟩,
       ⟨381, 800, 201, 300⟩, ⟨801, 1600, 301, 400⟩, ⟨1601, 2400, 401, 500⟩]
  | .co =>
      [⟨0, 1, 0, 50⟩, ⟨11/10, 2, 51, 100⟩, ⟨21/10, 10, 101, 200⟩,
       ⟨101/10, 17, 201, 300⟩, ⟨171/10, 34, 301, 400⟩, ⟨341/10, 50, 401, 500⟩]
  | .o3 =>
      [⟨0, 50, 0, 50⟩, ⟨51, 100, 51, 100⟩, ⟨101, 168, 101, 200⟩,
       ⟨169, 208, 201, 300⟩, ⟨209, 748, 301, 400⟩, ⟨749, 1000, 401, 500⟩]

/-- The linear interpolation of line 94:
`((i_high - i_low) / (c_high - c_low)) * (concentration - c_low) + i_low`. -/
def interp (b : Bracket) (c : ℚ) : ℚ :=
  (((b.iHigh : ℚ) - (b.iLow : ℚ)) / (b.cHigh - b.cLow)) * (c - b.cLow) + (b.iLow : ℚ)

/-- The bracket scan of lines 91-92: the first bracket with
`c_low <= concentration <= c_high`. -/
def findBracket (c : ℚ) : List Bracket → Option Bracket
  | [] => none
  | b :: rest => if b.cLow ≤ c ∧ c ≤ b.cHigh then some b else findBracket c rest

/-- `breakpoints[-1][1]`: the upper concentration bound of the last bracket. -/
def lastCHigh (bps : List Bracket) : ℚ :=
  (bps.getLastD ⟨0, 0, 0, 0⟩).cHigh

/-- Body of `calculate_sub_index` for a present concentration (lines 89-101):
interpolate and round inside the containing bracket; above the whole table
clamp to `500`; otherwise (below 0, or in a gap between brackets) `None`. -/
def subIndexTable (bps : List Bracket) (c : ℚ) : Option ℤ :=
  match findBracket c bps with
  | some b => some (pyRound (interp b c))
  | none => if lastCHigh bps < c then some 500 else none

/-- `calculate_sub_index(concentration, pollutant)` (lines 75-101).
A `None` concentration gives `None` (line 86); the
`pollutant not in INDIAN_AQI_BREAKPOINTS` branch of line 86 cannot fire
because `Pollutant` has exactly the six keys of the table, the only names
the callers pass. -/
def calculate_sub_index (concentration : Option ℚ) (pollutant : Pollutant) :
    Option ℤ :=
  match concentration with
  | none => none
  | some c => subIndexTable (INDIAN_AQI_BREAKPOINTS pollutant) c

/-- The value component of `INDIAN_AQI_CATEGORIES` (lines 65-72). -/
structure CategoryInfo where
  category : String
  color : String
  health_impact : String
deriving DecidableEq, Repr

/-- `INDIAN_AQI_CATEGORIES` (lines 65-72): AQI band → category data. -/
def INDIAN_AQI_CATEGORIES : List ((ℤ × ℤ) × CategoryInfo) :=
  [((0, 50), ⟨"Good", "#00B050", "Minimal impact"⟩),
   ((51, 100), ⟨"Satisfactory", "#92D050",
      "Minor breathing discomfort for sensitive people"⟩),
   ((101, 200), ⟨"Moderate", "#FFFF00",
      "Breathing discomfort for people with lung/heart disease"⟩),
   ((201, 300), ⟨"Poor", "#FF9900", "Breathing discomfort for most people"⟩),
   ((301, 400), ⟨"Very Poor", "#FF0000",
      "Respiratory illness on prolonged exposure"⟩),
   ((401, 500), ⟨"Severe", "#C00000",
      "Affects healthy people, serious impact on ill"⟩)]

/-- The category lookup loop of lines 146-150: the first band with
`low <= aqi <= high`, defaulting to the "Unknown" record. -/
def lookupCategory (aqi : ℤ) : CategoryInfo :=
  match INDIAN_AQI_CATEGORIES.find? (fun e => decide (e.1.1 ≤ aqi ∧ aqi ≤ e.1.2)) with
  | some e => e.2
  | none => ⟨"Unknown", "#888888", "N/A"⟩

/-- The keyword arguments of `calculate_indian_aqi` (line 104), all
defaulting to `None`. -/
structure Reading where
  pm25 : Option ℚ := none
  pm10 : Option ℚ := none
  no2 : Option ℚ := none
  so2 : Option ℚ := none
  co : Option ℚ := none
  o3 : Option ℚ := none
deriving DecidableEq, Repr

/-- One `if <conc> is not None: sub_indices[<key>] = calculate_sub_index(...)`
statement of lines 122-133. -/
def entryOf (c : Option ℚ) (p : Pollutant) : List (Pollutant × Option ℤ) :=
  match c with
  | none => []
  | some _ => [(p, calculate_sub_index c p)]

/-- The `sub_indices` dict after lines 120-133, in insertion order. -/
def rawSubIndices (r : Reading) : List (Pollutant × Option ℤ) :=
  entryOf r.pm25 .pm25 ++ entryOf r.pm10 .pm10 ++ entryOf r.no2 .no2 ++
  entryOf r.so2 .so2 ++ entryOf r.co .co ++ entryOf r.o3 .o3

/-- `valid_indices` (line 136): the sub-index entries that are not `None`. -/
def validIndices (r : Reading) : List (Pollutant × ℤ) :=
  (rawSubIndices r).filterMap (fun kv => kv.2.map (fun v => (kv.1, v)))

/-- Python's `max` over the dict values (line 142); `none` on the empty
dict, where Python is guarded by line 138. -/
def pyMaxVal : List ℤ → Option ℤ
  | [] => none
  | x :: xs =>
    match pyMaxVal xs with
    | none => some x
    | some y => if x < y then some y else some x

/-- Python's `max(valid_indices, key=valid_indices.get)` (line 143):
the first key/value pair attaining the maximal value, in insertion order
(Python's `max` keeps the earlier element on ties). -/
def firstMaxPair : List (Pollutant × ℤ) → Option (Pollutant × ℤ)
  | [] => none
  | x :: xs =>
    match firstMaxPair xs with
    | none => some x
    | some y => if x.2 < y.2 then some y else some x

/-- The result dict of lines 152-159. -/
structure AQIResult where
  aqi : ℤ
  category : String
  color : String
  health_impact : String
  dominant_pollutant : Pollutant
  sub_indices : List (Pollutant × ℤ)
deriving DecidableEq, Repr

/-- `calculate_indian_aqi` (lines 104-159).  The `if not valid_indices:
return None` guard of lines 138-139 is the case in which both maxima are
undefined (`none`), which happens exactly when `validIndices` is empty. -/
def calculate_indian_aqi (r : Reading) : Option AQIResult :=
  match pyMaxVal ((validIndices r).map Prod.snd), firstMaxPair (validIndices r) with
  | some aqi, some d =>
      some { aqi := aqi
             category := (lookupCategory aqi).category
             color := (lookupCategory aqi).color
             health_impact := (lookupCategory aqi).health_impact
             dominant_pollutant := d.1
             sub_indices := validIndices r }
  | _, _ => none

/-! ## Policy impact analyzer (policy_impact_analyzer.py) -/

/-- One row of the historical dataframe as used by
`analyze_odd_even_scheme`: city, date (days), AQI value. -/
structure DayRecord where
  city : String
  date : ℤ
  aqi : ℚ
deriving DecidableEq, Repr

/-- Membership in the before window `[start - 15 days, start)` of
lines 45-48 (with `days_before = 15`, line 35). -/
def inBeforeWindow (startDate d : ℤ) : Bool :=
  decide (startDate - 15 ≤ d ∧ d < startDate)

/-- Membership in the during window `[start, end]` of lines 50-53. -/
def inDuringWindow (startDate endDate d : ℤ) : Bool :=
  decide (startDate ≤ d ∧ d ≤ endDate)

/-- Membership in the after window `(end, end + 15 days]` of
lines 55-58 (with `days_after = 15`, line 36). -/
def inAfterWindow (endDate d : ℤ) : Bool :=
  decide (endDate < d ∧ d ≤ endDate + 15)

/-- `delhi_data` (line 42): the rows with `City == 'Delhi'`. -/
def delhiData (df : List DayRecord) : List DayRecord :=
  df.filter (fun r => r.city == "Delhi")

/-- `before_data` (lines 45-48). -/
def beforeData (df : List DayRecord) (startDate : ℤ) : List DayRecord :=
  (delhiData df).filter (fun r => inBeforeWindow startDate r.date)

/-- `during_data` (lines 50-53). -/
def duringData (df : List DayRecord) (startDate endDate : ℤ) : List DayRecord :=
  (delhiData df).filter (fun r => inDuringWindow startDate endDate r.date)

/-- `after_data` (lines 55-58). -/
def afterData (df : List DayRecord) (endDate : ℤ) : List DayRecord :=
  (delhiData df).filter (fun r => inAfterWindow endDate r.date)

/-- pandas `Series.mean()`: NaN (here `none`) on an empty slice, the
arithmetic mean otherwise. -/
def seriesMean (xs : List ℚ) : Option ℚ :=
  match xs with
  | [] => none
  | _ => some (xs.sum / (xs.length : ℚ))

/-- `((value - baseline) / baseline) * 100` (lines 66-67).  If either mean
is NaN the result is NaN; if the baseline is 0 the float result is
non-finite (±inf or NaN).  All non-finite outcomes are modelled as `none`. -/
def pctChange (baseline value : Option ℚ) : Option ℚ :=
  match baseline, value with
  | some b, some v => if b = 0 then none else some ((v - b) / b * 100)
  | _, _ => none

/-- The comparison `pct_change_during < -5` of line 81 under Python float
semantics: `NaN < -5` is `False`. -/
def pctBelowThreshold (pct : Option ℚ) : Bool :=
  match pct with
  | some q => decide (q < -5)
  | none => false

/-- One element of the `results` list (lines 72-82), without the
formatted period string. -/
structure PeriodEntry where
  before_aqi : Option ℚ
  during_aqi : Option ℚ
  after_aqi : Option ℚ
  pct_change_during : Option ℚ
  pct_change_after : Option ℚ
  statistically_significant : Bool
  p_value : ℚ
  effectiveness : String
deriving Repr

/-- One iteration of the period loop of `analyze_odd_even_scheme`
(lines 30-82).  `pValue` is the p-value produced by the external library
call `scipy.stats.ttest_ind(before_data['AQI'], during_data['AQI'])`
(line 70), passed in explicitly. -/
def analyze_odd_even_period (df : List DayRecord) (startDate endDate : ℤ)
    (pValue : ℚ) : PeriodEntry :=
  let before_mean := seriesMean ((beforeData df startDate).map (·.aqi))
  let during_mean := seriesMean ((duringData df startDate endDate).map (·.aqi))
  let after_mean := seriesMean ((afterData df endDate).map (·.aqi))
  let pcd := pctChange before_mean during_mean
  let pca := pctChange before_mean after_mean
  { before_aqi := before_mean
    during_aqi := during_mean
    after_aqi := after_mean
    pct_change_during := pcd
    pct_change_after := pca
    statistically_significant := decide (pValue < 1/20)
    p_value := pValue
    effectiveness :=
      if pctBelowThreshold pcd ∧ pValue < 1/20 then "Effective"
      else "Limited/No Effect" }

/-- The Delhi test case of the module's main block (lines 207-213):
`calculate_indian_aqi(pm25=187, pm10=254)`. -/
def delhiReading : Reading := ⟨some 187, some 254, none, none, none, none⟩

/-- The result of `calculate_indian_aqi(pm25=187, pm10=254)`. -/
def delhiResult : AQIResult :=
  ⟨352, "Very Poor", "#FF0000", "Respiratory illness on prolonged exposure",
   .pm25, [(.pm25, 352), (.pm10, 204)]⟩

/-- A small Delhi series around an intervention starting at day 0: two
baseline days at AQI 100 and two intervention days at AQI 95, so the mean
AQI drops from 100 to 95, a change of exactly -5%. -/
def oddEvenSample : List DayRecord :=
  [⟨"Delhi", -1, 100⟩, ⟨"Delhi", -2, 100⟩, ⟨"Delhi", 1, 95⟩, ⟨"Delhi", 2, 95⟩]

/-! ## Basic facts about `pyRound` -/

theorem floor_le_pyRound (q : ℚ) : ⌊q⌋ ≤ pyRound q := by
  unfold pyRound; split_ifs <;> omega

theorem pyRound_le_floor_add_one (q : ℚ) : pyRound q ≤ ⌊q⌋ + 1 := by
  unfold pyRound; split_ifs <;> omega

theorem pyRound_le_of_le_int (q : ℚ) (m : ℤ) (h : q ≤ (m : ℚ)) :
    pyRound q ≤ m := by
  have hfq : (⌊q⌋ : ℚ) ≤ q := Int.floor_le q
  have hfl : ⌊q⌋ ≤ m := by
    have := Int.floor_le_floor h
    rwa [Int.floor_intCast] at this
  unfold pyRound
  split_ifs with h1 h2 h3
  · exact hfl
  · have hq : (⌊q⌋ : ℚ) < (m : ℚ) := by linarith
    have : ⌊q⌋ < m := by exact_mod_cast hq
    omega
  · exact hfl
  · have hq : (⌊q⌋ : ℚ) < (m : ℚ) := by
      have : (1 : ℚ)/2 ≤ q - ⌊q⌋ := le_of_not_lt h1
      linarith
    have : ⌊q⌋ < m := by exact_mod_cast hq
    omega

theorem le_pyRound_of_int_le (m : ℤ) (q : ℚ) (h : (m : ℚ) ≤ q) :
    m ≤ pyRound q := by
  have : m ≤ ⌊q⌋ := Int.le_floor.mpr h
  unfold pyRound; split_ifs <;> omega

theorem pyRound_mono {q q' : ℚ} (h : q ≤ q') : pyRound q ≤ pyRound q' := by
  have hf : ⌊q⌋ ≤ ⌊q'⌋ := Int.floor_le_floor h
  rcases eq_or_lt_of_le hf with heq | hlt
  · unfold pyRound
    rw [← heq]
    split_ifs <;> first | omega | linarith
  · have h1 := pyRound_le_floor_add_one q
    have h2 := floor_le_pyRound q'
    omega

/-! ## Basic facts about `interp` and `findBracket` -/

theorem interp_mono (b : Bracket) (hc : b.cLow < b.cHigh) (hi : b.iLow ≤ b.iHigh)
    {c1 c2 : ℚ} (h : c1 ≤ c2) : interp b c1 ≤ interp b c2 := by
  unfold interp
  have hs : 0 ≤ ((b.iHigh : ℚ) - (b.iLow : ℚ)) / (b.cHigh - b.cLow) := by
    apply div_nonneg
    · have : (b.iLow : ℚ) ≤ (b.iHigh : ℚ) := by exact_mod_cast hi
      linarith
    · linarith
  have := mul_le_mul_of_nonneg_left (sub_le_sub_right h b.cLow) hs
  linarith

theorem interp_cLow (b : Bracket) : interp b b.cLow = (b.iLow : ℚ) := by
  unfold interp; ring

theorem interp_cHigh (b : Bracket) (hc : b.cLow < b.cHigh) :
    interp b b.cHigh = (b.iHigh : ℚ) := by
  unfold interp
  rw [div_mul_cancel₀ _ (sub_ne_zero.mpr (ne_of_gt hc))]
  ring

theorem interp_le_iHigh (b : Bracket) (hc : b.cLow < b.cHigh)
    (hi : b.iLow ≤ b.iHigh) {c : ℚ} (h2 : c ≤ b.cHigh) :
    interp b c ≤ (b.iHigh : ℚ) :=
  (interp_mono b hc hi h2).trans_eq (interp_cHigh b hc)

theorem iLow_le_interp (b : Bracket) (hc : b.cLow < b.cHigh)
    (hi : b.iLow ≤ b.iHigh) {c : ℚ} (h1 : b.cLow ≤ c) :
    (b.iLow : ℚ) ≤ interp b c := by
  rw [← interp_cLow b]
  exact interp_mono b hc hi h1

theorem findBracket_mem {c : ℚ} {bps : List Bracket} {b : Bracket}
    (h : findBracket c bps = some b) : b ∈ bps ∧ b.cLow ≤ c ∧ c ≤ b.cHigh := by
  induction bps with
  | nil => simp [findBracket] at h
  | cons x xs ih =>
    rw [findBracket] at h
    split_ifs at h with hx
    · cases h
      exact ⟨List.mem_cons_self _ _, hx.1, hx.2⟩
    · rcases ih h with ⟨hm, h1, h2⟩
      exact ⟨List.mem_cons_of_mem x hm, h1, h2⟩

theorem findBracket_eq_none {c : ℚ} {bps : List Bracket}
    (h : ∀ b ∈ bps, ¬(b.cLow ≤ c ∧ c ≤ b.cHigh)) : findBracket c bps = none := by
  induction bps with
  | nil => rfl
  | cons x xs ih =>
    rw [findBracket, if_neg (h x (List.mem_cons_self x xs))]
    exact ih fun b hb => h b (List.mem_cons_of_mem x hb)

/-! ## Well-formedness of the breakpoint tables -/

/-- The shape facts about a breakpoint table that the monotonicity and
clamping arguments need; each holds of all six tables by inspection. -/
structure TableOK (bps : List Bracket) : Prop where
  sorted : bps.Pairwise fun a b => a.cHigh < b.cLow ∧ a.iHigh ≤ b.iLow
  each : ∀ b ∈ bps, b.cLow < b.cHigh ∧ b.iLow ≤ b.iHigh ∧ 0 ≤ b.cLow ∧ b.iHigh ≤ 500
  le_last : ∀ b ∈ bps, b.cHigh ≤ lastCHigh bps
  last_nonneg : 0 ≤ lastCHigh bps

theorem tableOK (p : Pollutant) : TableOK (INDIAN_AQI_BREAKPOINTS p) := by
  cases p <;>
    exact ⟨by norm_num [INDIAN_AQI_BREAKPOINTS, List.pairwise_cons],
           by norm_num [INDIAN_AQI_BREAKPOINTS],
           by norm_num [INDIAN_AQI_BREAKPOINTS, lastCHigh],
           by norm_num [INDIAN_AQI_BREAKPOINTS, lastCHigh]⟩

/-- Monotonicity of the sub-index over one well-formed table, on the
concentrations where the sub-index is defined. -/
theorem subIndexTable_mono {bps : List Bracket} (hOK : TableOK bps)
    {c1 c2 : ℚ} (h12 : c1 ≤ c2) {v1 v2 : ℤ}
    (h1 : subIndexTable bps c1 = some v1) (h2 : subIndexTable bps c2 = some v2) :
    v1 ≤ v2 := by
  unfold subIndexTable at h1 h2
  cases hf1 : findBracket c1 bps with
  | some b1 =>
    rw [hf1] at h1
    obtain ⟨hm1, hl1, hh1⟩ := findBracket_mem hf1
    obtain ⟨hcb1, hib1, _, hi5001⟩ := hOK.each b1 hm1
    have hv1 : v1 = pyRound (interp b1 c1) := (Option.some.inj h1).symm
    cases hf2 : findBracket c2 bps with
    | some b2 =>
      rw [hf2] at h2
      obtain ⟨hm2, hl2, hh2⟩ := findBracket_mem hf2
      obtain ⟨hcb2, hib2, _, _⟩ := hOK.each b2 hm2
      have hv2 : v2 = pyRound (interp b2 c2) := (Option.some.inj h2).symm
      by_cases heq : b1 = b2
      · subst heq
        rw [hv1, hv2]
        exact pyRound_mono (interp_mono b1 hcb1 hib1 h12)
      · have hsym : bps.Pairwise fun a b =>
            (a.cHigh < b.cLow ∧ a.iHigh ≤ b.iLow) ∨
            (b.cHigh < a.cLow ∧ b.iHigh ≤ a.iLow) :=
          hOK.sorted.imp Or.inl
        have hrel := hsym.forall (fun a b hab => hab.symm) hm1 hm2 heq
        rcases hrel with ⟨hch, hil⟩ | ⟨hch, hil⟩
        · have e1 : interp b1 c1 ≤ (b1.iHigh : ℚ) := interp_le_iHigh b1 hcb1 hib1 hh1
          have e2 : (b2.iLow : ℚ) ≤ interp b2 c2 := iLow_le_interp b2 hcb2 hib2 hl2
          have g1 := pyRound_le_of_le_int _ _ e1
          have g2 := le_pyRound_of_int_le _ _ e2
          omega
        · exfalso; linarith
    | none =>
      rw [hf2] at h2
      by_cases hcl : lastCHigh bps < c2
      · rw [if_pos hcl] at h2
        have hv2 : v2 = 500 := (Option.some.inj h2).symm
        have e1 : interp b1 c1 ≤ (b1.iHigh : ℚ) := interp_le_iHigh b1 hcb1 hib1 hh1
        have g1 := pyRound_le_of_le_int _ _ e1
        omega
      · rw [if_neg hcl] at h2
        cases h2
  | none =>
    rw [hf1] at h1
    by_cases hcl1 : lastCHigh bps < c1
    · rw [if_pos hcl1] at h1
      have hv1 : v1 = 500 := (Option.some.inj h1).symm
      cases hf2 : findBracket c2 bps with
      | some b2 =>
        obtain ⟨hm2, hl2, hh2⟩ := findBracket_mem hf2
        have := hOK.le_last b2 hm2
        exfalso; linarith
      | none =>
        rw [hf2] at h2
        by_cases hcl2 : lastCHigh bps < c2
        · rw [if_pos hcl2] at h2
          have hv2 : v2 = 500 := (Option.some.inj h2).symm
          omega
        · rw [if_neg hcl2] at h2
          cases h2
    · rw [if_neg hcl1] at h1
      cases h1

/-! ## Concrete sub-index evaluations -/

theorem subIndex_pm25_187 : calculate_sub_index (some 187) .pm25 = some 352 := by
  norm_num [calculate_sub_index, subIndexTable, INDIAN_AQI_BREAKPOINTS, findBracket,
    interp, pyRound]

theorem subIndex_pm10_254 : calculate_sub_index (some 254) .pm10 = some 204 := by
  norm_num [calculate_sub_index, subIndexTable, INDIAN_AQI_BREAKPOINTS, findBracket,
    interp, pyRound]

theorem subIndex_pm25_0 : calculate_sub_index (some 0) .pm25 = some 0 := by
  norm_num [calculate_sub_index, subIndexTable, INDIAN_AQI_BREAKPOINTS, findBracket,
    interp, pyRound]

theorem subIndex_pm25_30 : calculate_sub_index (some 30) .pm25 = some 50 := by
  norm_num [calculate_sub_index, subIndexTable, INDIAN_AQI_BREAKPOINTS, findBracket,
    interp, pyRound]

theorem subIndex_pm25_gap : calculate_sub_index (some (61/2)) .pm25 = none := by
  norm_num [calculate_sub_index, subIndexTable, INDIAN_AQI_BREAKPOINTS, findBracket,
    interp, pyRound, lastCHigh]

theorem subIndex_pm25_neg5 : calculate_sub_index (some (-5)) .pm25 = none := by
  norm_num [calculate_sub_index, subIndexTable, INDIAN_AQI_BREAKPOINTS, findBracket,
    interp, pyRound, lastCHigh]

theorem subIndex_pm10_100 : calculate_sub_index (some 100) .pm10 = some 100 := by
  norm_num [calculate_sub_index, subIndexTable, INDIAN_AQI_BREAKPOINTS, findBracket,
    interp, pyRound]

theorem subIndex_pm10_40 : calculate_sub_index (some 40) .pm10 = some 40 := by
  norm_num [calculate_sub_index, subIndexTable, INDIAN_AQI_BREAKPOINTS, findBracket,
    interp, pyRound]

/-! ## Claims C5, C7, C8 about `calculate_sub_index` -/

/-- C8: for every pollutant and every pair of concentrations `c1 ≤ c2` on
which `calculate_sub_index` is defined, the sub-index of `c1` is at most
the sub-index of `c2`. -/
theorem C8_subIndex_monotone (p : Pollutant) (c1 c2 : ℚ) (v1 v2 : ℤ)
    (h12 : c1 ≤ c2)
    (h1 : calculate_sub_index (some c1) p = some v1)
    (h2 : calculate_sub_index (some c2) p = some v2) : v1 ≤ v2 :=
  subIndexTable_mono (tableOK p) h12 h1 h2

theorem C8_witness : (0 : ℚ) ≤ 30 ∧ calculate_sub_index (some 0) .pm25 = some 0 ∧
    calculate_sub_index (some 30) .pm25 = some 50 ∧ (0 : ℤ) ≤ 50 :=
  ⟨by norm_num, subIndex_pm25_0, subIndex_pm25_30,
   C8_subIndex_monotone .pm25 0 30 0 50 (by norm_num) subIndex_pm25_0 subIndex_pm25_30⟩

/-- C7: for every pollutant, a concentration strictly above the upper bound
of the last bracket of its table gets sub-index exactly 500, the maximum
index value of the table, rather than failing or extrapolating. -/
theorem C7_clamp_above_table (p : Pollutant) (c : ℚ)
    (h : lastCHigh (INDIAN_AQI_BREAKPOINTS p) < c) :
    calculate_sub_index (some c) p = some 500 := by
  have hOK := tableOK p
  show subIndexTable (INDIAN_AQI_BREAKPOINTS p) c = some 500
  unfold subIndexTable
  rw [findBracket_eq_none]
  · show (if lastCHigh (INDIAN_AQI_BREAKPOINTS p) < c then some 500 else none) =
      some (500 : ℤ)
    rw [if_pos h]
  · intro b hb hcond
    have := hOK.le_last b hb
    linarith [hcond.2]

theorem C7_witness : lastCHigh (INDIAN_AQI_BREAKPOINTS .pm25) < 600 ∧
    calculate_sub_index (some 600) .pm25 = some 500 :=
  ⟨by norm_num [lastCHigh, INDIAN_AQI_BREAKPOINTS],
   C7_clamp_above_table .pm25 600 (by norm_num [lastCHigh, INDIAN_AQI_BREAKPOINTS])⟩

/-- C5 (amended): a negative concentration makes `calculate_sub_index`
return `None`; no exception of any kind is raised. -/
theorem C5_negative_returns_none (p : Pollutant) (c : ℚ) (h : c < 0) :
    calculate_sub_index (some c) p = none := by
  have hOK := tableOK p
  show subIndexTable (INDIAN_AQI_BREAKPOINTS p) c = none
  unfold subIndexTable
  rw [findBracket_eq_none]
  · show (if lastCHigh (INDIAN_AQI_BREAKPOINTS p) < c then some 500 else none) =
      (none : Option ℤ)
    rw [if_neg (not_lt.mpr (h.le.trans hOK.last_nonneg))]
  · intro b hb hcond
    have := (hOK.each b hb).2.2.1
    linarith [hcond.1]

theorem C5_witness : ((-5 : ℚ) < 0) ∧ calculate_sub_index (some (-5)) .pm25 = none :=
  ⟨by norm_num, C5_negative_returns_none .pm25 (-5) (by norm_num)⟩

/-! ## Facts about `pyMaxVal` and `firstMaxPair` -/

theorem firstMaxPair_eq_none {l : List (Pollutant × ℤ)}
    (h : firstMaxPair l = none) : l = [] := by
  cases l with
  | nil => rfl
  | cons x xs =>
    exfalso
    rw [firstMaxPair] at h
    cases hxs : firstMaxPair xs with
    | none => rw [hxs] at h; cases h
    | some y => rw [hxs] at h; dsimp only at h; split_ifs at h

theorem firstMaxPair_mem {l : List (Pollutant × ℤ)} {y : Pollutant × ℤ}
    (h : firstMaxPair l = some y) : y ∈ l := by
  induction l generalizing y with
  | nil => cases h
  | cons x xs ih =>
    rw [firstMaxPair] at h
    cases hxs : firstMaxPair xs with
    | none =>
      rw [hxs] at h; cases h
      exact List.mem_cons_self _ _
    | some y' =>
      rw [hxs] at h
      dsimp only at h
      split_ifs at h
      · cases h; exact List.mem_cons_of_mem x (ih hxs)
      · cases h; exact List.mem_cons_self _ _

theorem firstMaxPair_ub {l : List (Pollutant × ℤ)} {y : Pollutant × ℤ}
    (h : firstMaxPair l = some y) : ∀ z ∈ l, z.2 ≤ y.2 := by
  induction l generalizing y with
  | nil => cases h
  | cons x xs ih =>
    rw [firstMaxPair] at h
    cases hxs : firstMaxPair xs with
    | none =>
      rw [hxs] at h
      obtain rfl : x = y := Option.some.inj h
      intro z hz
      rcases List.mem_cons.mp hz with rfl | hz'
      · exact le_refl _
      · rw [firstMaxPair_eq_none hxs] at hz'
        cases hz'
    | some y' =>
      rw [hxs] at h
      dsimp only at h
      split_ifs at h with hlt
      · obtain rfl : y' = y := Option.some.inj h
        intro z hz
        rcases List.mem_cons.mp hz with rfl | hz'
        · exact le_of_lt hlt
        · exact ih hxs z hz'
      · obtain rfl : x = y := Option.some.inj h
        intro z hz
        rcases List.mem_cons.mp hz with rfl | hz'
        · exact le_refl _
        · exact (ih hxs z hz').trans (not_lt.mp hlt)

theorem pyMaxVal_map_snd (l : List (Pollutant × ℤ)) :
    pyMaxVal (l.map Prod.snd) = (firstMaxPair l).map Prod.snd := by
  induction l with
  | nil => rfl
  | cons x xs ih =>
    rw [List.map_cons, pyMaxVal, firstMaxPair, ih]
    cases hxs : firstMaxPair xs with
    | none => rfl
    | some y =>
      show (if x.2 < y.2 then some y.2 else some x.2) =
        Option.map Prod.snd (if x.2 < y.2 then some y else some x)
      split_ifs <;> rfl

theorem firstMaxPair_lookup {l : List (Pollutant × ℤ)}
    (hnd : (l.map Prod.fst).Nodup) {y : Pollutant × ℤ}
    (h : firstMaxPair l = some y) : List.lookup y.1 l = some y.2 := by
  induction l generalizing y with
  | nil => cases h
  | cons x xs ih =>
    rw [List.map_cons, List.nodup_cons] at hnd
    rw [firstMaxPair] at h
    cases hxs : firstMaxPair xs with
    | none =>
      rw [hxs] at h
      obtain rfl : x = y := Option.some.inj h
      simp [List.lookup]
    | some y' =>
      rw [hxs] at h
      dsimp only at h
      split_ifs at h with hlt
      · obtain rfl : y' = y := Option.some.inj h
        have hym : y' ∈ xs := firstMaxPair_mem hxs
        have hne : (y'.1 == x.1) = false := by
          apply beq_eq_false_iff_ne.mpr
          intro he
          exact hnd.1 (he ▸ List.mem_map_of_mem Prod.fst hym)
        simp only [List.lookup, hne]
        exact ih hnd.2 hxs
      · obtain rfl : x = y := Option.some.inj h
        simp [List.lookup]

/-! ## The keys of `validIndices` are distinct -/

theorem keys_filterMap_sublist (l : List (Pollutant × Option ℤ)) :
    ((l.filterMap fun kv => kv.2.map fun v => (kv.1, v)).map Prod.fst).Sublist
      (l.map Prod.fst) := by
  induction l with
  | nil => simp
  | cons x xs ih =>
    obtain ⟨k, v⟩ := x
    cases v with
    | none =>
      simp only [List.filterMap_cons, Option.map_none, List.map_cons]
      exact List.Sublist.cons k ih
    | some w =>
      simp only [List.filterMap_cons, Option.map_some, List.map_cons]
      exact List.Sublist.cons₂ k ih

theorem keys_entryOf_sublist (c : Option ℚ) (p : Pollutant) :
    ((entryOf c p).map Prod.fst).Sublist [p] := by
  cases c with
  | none => exact List.nil_sublist [p]
  | some v => exact List.Sublist.refl [p]

theorem keys_rawSubIndices_sublist (r : Reading) :
    ((rawSubIndices r).map Prod.fst).Sublist
      [Pollutant.pm25, .pm10, .no2, .so2, .co, .o3] := by
  unfold rawSubIndices
  simp only [List.map_append]
  exact (((((keys_entryOf_sublist r.pm25 .pm25).append
    (keys_entryOf_sublist r.pm10 .pm10)).append
    (keys_entryOf_sublist r.no2 .no2)).append
    (keys_entryOf_sublist r.so2 .so2)).append
    (keys_entryOf_sublist r.co .co)).append
    (keys_entryOf_sublist r.o3 .o3)

theorem keys_validIndices_nodup (r : Reading) :
    ((validIndices r).map Prod.fst).Nodup :=
  ((keys_filterMap_sublist (rawSubIndices r)).trans
    (keys_rawSubIndices_sublist r)).nodup (by decide)

/-! ## Claims C1, C2, C6, C10 about `calculate_indian_aqi` -/

/-- C1: whenever `calculate_indian_aqi` returns a result, the overall AQI
is the value recorded for the dominant pollutant in the returned
`sub_indices` map, and it is the maximum of the values of that map. -/
theorem C1_aqi_is_dominant_and_max (r : Reading) (res : AQIResult)
    (h : calculate_indian_aqi r = some res) :
    List.lookup res.dominant_pollutant res.sub_indices = some res.aqi ∧
    (∀ kv ∈ res.sub_indices, kv.2 ≤ res.aqi) ∧
    res.aqi ∈ res.sub_indices.map Prod.snd := by
  unfold calculate_indian_aqi at h
  rw [pyMaxVal_map_snd] at h
  cases hd : firstMaxPair (validIndices r) with
  | none =>
    rw [hd] at h
    cases h
  | some d =>
    rw [hd] at h
    injection h with h'
    subst h'
    refine ⟨?_, ?_, ?_⟩
    · exact firstMaxPair_lookup (keys_validIndices_nodup r) hd
    · exact firstMaxPair_ub hd
    · exact List.mem_map_of_mem Prod.snd (firstMaxPair_mem hd)

theorem validIndices_delhi :
    validIndices delhiReading = [(.pm25, 352), (.pm10, 204)] := by
  simp [validIndices, rawSubIndices, entryOf, delhiReading,
    subIndex_pm25_187, subIndex_pm10_254]

theorem calculate_indian_aqi_delhi :
    calculate_indian_aqi delhiReading = some delhiResult := by
  unfold calculate_indian_aqi
  rw [validIndices_delhi]
  rfl

theorem C1_witness :
    calculate_indian_aqi delhiReading = some delhiResult ∧
    (List.lookup delhiResult.dominant_pollutant delhiResult.sub_indices =
        some delhiResult.aqi ∧
      (∀ kv ∈ delhiResult.sub_indices, kv.2 ≤ delhiResult.aqi) ∧
      delhiResult.aqi ∈ delhiResult.sub_indices.map Prod.snd) :=
  ⟨calculate_indian_aqi_delhi,
   C1_aqi_is_dominant_and_max delhiReading delhiResult calculate_indian_aqi_delhi⟩

/-- C2: `calculate_indian_aqi(pm25=187, pm10=254)` returns overall AQI 352
with dominant pollutant PM2.5, category "Very Poor", PM2.5 sub-index 352
and PM10 sub-index 204 < 352. -/
theorem C2_delhi_test_case :
    calculate_indian_aqi ⟨some 187, some 254, none, none, none, none⟩ =
      some ⟨352, "Very Poor", "#FF0000",
            "Respiratory illness on prolonged exposure", .pm25,
            [(.pm25, 352), (.pm10, 204)]⟩ ∧ (204 : ℤ) < 352 :=
  ⟨calculate_indian_aqi_delhi, by decide⟩

/-- C6 (amended): `calculate_indian_aqi` returns the ordinary value `None`
-- it does not raise anything -- exactly when the reading is empty or every
supplied concentration fails sub-index computation, i.e. when the
valid-sub-index list is empty. -/
theorem C6_none_iff_no_valid_index (r : Reading) :
    calculate_indian_aqi r = none ↔ validIndices r = [] := by
  unfold calculate_indian_aqi
  rw [pyMaxVal_map_snd]
  cases hd : firstMaxPair (validIndices r) with
  | none =>
    exact iff_of_true rfl (firstMaxPair_eq_none hd)
  | some d =>
    constructor
    · intro hcontr
      exact Option.noConfusion hcontr
    · intro hnil
      rw [hnil] at hd
      cases hd

/-- C6 counterexample: on the empty reading, and on a reading whose only
concentration is invalid, `calculate_indian_aqi` returns `None` as an
ordinary value; no `NoDataError` exists in the code. -/
theorem C6_counterexample :
    calculate_indian_aqi ⟨none, none, none, none, none, none⟩ = none ∧
    calculate_indian_aqi ⟨some (-1), none, none, none, none, none⟩ = none := by
  constructor
  · rfl
  · have h1 : calculate_sub_index (some (-1)) .pm25 = none := by
      norm_num [calculate_sub_index, subIndexTable, INDIAN_AQI_BREAKPOINTS,
        findBracket, interp, pyRound, lastCHigh]
    have hv : validIndices ⟨some (-1), none, none, none, none, none⟩ = [] := by
      simp [validIndices, rawSubIndices, entryOf, h1]
    unfold calculate_indian_aqi
    rw [pyMaxVal_map_snd, hv]
    rfl

/-- C5 counterexample: a negative PM2.5 concentration raises nothing: its
sub-index is `None` and `calculate_indian_aqi` silently drops PM2.5 from
the `sub_indices` of the result it still returns. -/
theorem C5_counterexample :
    calculate_sub_index (some (-5)) .pm25 = none ∧
    calculate_indian_aqi ⟨some (-5), some 100, none, none, none, none⟩ =
      some ⟨100, "Satisfactory", "#92D050",
            "Minor breathing discomfort for sensitive people", .pm10,
            [(.pm10, 100)]⟩ ∧
    List.lookup Pollutant.pm25 [((Pollutant.pm10 : Pollutant), (100 : ℤ))] = none := by
  refine ⟨subIndex_pm25_neg5, ?_, by decide⟩
  have hv : validIndices ⟨some (-5), some 100, none, none, none, none⟩ =
      [(.pm10, 100)] := by
    simp [validIndices, rawSubIndices, entryOf, subIndex_pm25_neg5, subIndex_pm10_100]
  unfold calculate_indian_aqi
  rw [hv]
  rfl

/-- C10: there are non-negative concentrations strictly between two
adjacent brackets -- PM2.5 = 30.5 lies between the bracket ending at 30
and the bracket starting at 31 -- whose sub-index is `None`, and
`calculate_indian_aqi` then silently drops that pollutant from the
`sub_indices` of its result instead of raising any error. -/
theorem C10_gap_silently_dropped :
    (0 : ℚ) ≤ 61/2 ∧ (30 : ℚ) < 61/2 ∧ (61/2 : ℚ) < 31 ∧
    calculate_sub_index (some (61/2)) .pm25 = none ∧
    calculate_indian_aqi ⟨some (61/2), some 40, none, none, none, none⟩ =
      some ⟨40, "Good", "#00B050", "Minimal impact", .pm10, [(.pm10, 40)]⟩ ∧
    List.lookup Pollutant.pm25 [((Pollutant.pm10 : Pollutant), (40 : ℤ))] = none := by
  refine ⟨by norm_num, by norm_num, by norm_num, subIndex_pm25_gap, ?_, by decide⟩
  have hv : validIndices ⟨some (61/2), some 40, none, none, none, none⟩ =
      [(.pm10, 40)] := by
    simp [validIndices, rawSubIndices, entryOf, subIndex_pm25_gap, subIndex_pm10_40]
  unfold calculate_indian_aqi
  rw [hv]
  rfl

/-! ## Claims C3, C4, C9 about the policy impact analyzer -/

theorem pctBelowThreshold_iff (pct : Option ℚ) :
    pctBelowThreshold pct = true ↔ ∃ q, pct = some q ∧ q < -5 := by
  cases pct with
  | none => simp [pctBelowThreshold]
  | some q => simp [pctBelowThreshold]

/-- C3 (amended): with an empty before slice the analysis does not fail;
it still returns a report entry whose baseline mean and percentage change
are NaN (modelled as `none`). -/
theorem C3_empty_before_gives_nan (df : List DayRecord) (startDate endDate : ℤ)
    (pValue : ℚ) (h : beforeData df startDate = []) :
    (analyze_odd_even_period df startDate endDate pValue).before_aqi = none ∧
    (analyze_odd_even_period df startDate endDate pValue).pct_change_during = none := by
  unfold analyze_odd_even_period
  rw [h]
  exact ⟨rfl, rfl⟩

theorem C3_witness :
    beforeData [⟨"Delhi", 5, 100⟩] 0 = [] ∧
    ((analyze_odd_even_period [⟨"Delhi", 5, 100⟩] 0 10 (1/2)).before_aqi = none ∧
     (analyze_odd_even_period [⟨"Delhi", 5, 100⟩] 0 10 (1/2)).pct_change_during =
       none) :=
  ⟨rfl, C3_empty_before_gives_nan [⟨"Delhi", 5, 100⟩] 0 10 (1/2) rfl⟩

/-- C3 counterexample: with no Delhi record before day 0, the analysis
does not raise an `InsufficientDataError` (no such error exists in the
code); it returns a report entry whose percentage change is NaN. -/
theorem C3_counterexample :
    (analyze_odd_even_period [⟨"Delhi", 5, 100⟩] 0 10 (1/2)).pct_change_during =
      none := rfl

/-- C4 (amended): the verdict is "Effective" iff the percentage change is
a number strictly below -5 (NaN is never below) and the p-value is below
0.05; the boundary case of exactly -5% is "Limited/No Effect". -/
theorem C4_effectiveness_iff (df : List DayRecord) (startDate endDate : ℤ)
    (pValue : ℚ) :
    (analyze_odd_even_period df startDate endDate pValue).effectiveness =
        "Effective" ↔
      ((∃ q, (analyze_odd_even_period df startDate endDate pValue).pct_change_during
            = some q ∧ q < -5) ∧
        pValue < 1/20) := by
  unfold analyze_odd_even_period
  dsimp only
  split_ifs with hc
  · exact iff_of_true rfl ⟨(pctBelowThreshold_iff _).mp hc.1, hc.2⟩
  · refine iff_of_false (by decide) ?_
    rintro ⟨hex, hp⟩
    exact hc ⟨(pctBelowThreshold_iff _).mpr hex, hp⟩

/-- C4 counterexample: a before mean of 100 and a during mean of 95 give a
percentage change of exactly -5; with p = 0.02 < 0.05 the spec's "≤ -5%"
rule would say "Effective", but the code's strict `< -5` comparison yields
"Limited/No Effect". -/
theorem C4_counterexample :
    (analyze_odd_even_period oddEvenSample 0 10 (1/50)).pct_change_during =
      some (-5) ∧
    ((1 : ℚ)/50) < 1/20 ∧
    (analyze_odd_even_period oddEvenSample 0 10 (1/50)).effectiveness =
      "Limited/No Effect" := by
  have hb : beforeData oddEvenSample 0 =
      [⟨"Delhi", -1, 100⟩, ⟨"Delhi", -2, 100⟩] := rfl
  have hd : duringData oddEvenSample 0 10 =
      [⟨"Delhi", 1, 95⟩, ⟨"Delhi", 2, 95⟩] := rfl
  have hpc : pctChange
      (seriesMean ((beforeData oddEvenSample 0).map (·.aqi)))
      (seriesMean ((duringData oddEvenSample 0 10).map (·.aqi))) = some (-5) := by
    rw [hb, hd]
    norm_num [seriesMean, pctChange]
  unfold analyze_odd_even_period
  dsimp only
  rw [hpc]
  refine ⟨rfl, by norm_num, ?_⟩
  norm_num [pctBelowThreshold]

/-- C9: for an intervention period with start ≤ end, the before, during
and after windows are pairwise disjoint and together cover exactly the
days from start - 15 to end + 15: no gaps, no overlaps. -/
theorem C9_windows_partition (startDate endDate d : ℤ) (h : startDate ≤ endDate) :
    ¬(inBeforeWindow startDate d = true ∧ inDuringWindow startDate endDate d = true) ∧
    ¬(inBeforeWindow startDate d = true ∧ inAfterWindow endDate d = true) ∧
    ¬(inDuringWindow startDate endDate d = true ∧ inAfterWindow endDate d = true) ∧
    ((startDate - 15 ≤ d ∧ d ≤ endDate + 15) ↔
      (inBeforeWindow startDate d = true ∨ inDuringWindow startDate endDate d = true ∨
       inAfterWindow endDate d = true)) := by
  simp only [inBeforeWindow, inDuringWindow, inAfterWindow, decide_eq_true_eq]
  omega

theorem C9_witness :
    ((0 : ℤ) ≤ 10) ∧
    (¬(inBeforeWindow 0 3 = true ∧ inDuringWindow 0 10 3 = true) ∧
     ¬(inBeforeWindow 0 3 = true ∧ inAfterWindow 10 3 = true) ∧
     ¬(inDuringWindow 0 10 3 = true ∧ inAfterWindow 10 3 = true) ∧
     (((0 : ℤ) - 15 ≤ 3 ∧ (3 : ℤ) ≤ 10 + 15) ↔
       (inBeforeWindow 0 3 = true ∨ inDuringWindow 0 10 3 = true ∨
        inAfterWindow 10 3 = true))) :=
  ⟨by decide, C9_windows_partition 0 10 3 (by decide)⟩

end AirPollution
